import Mathlib

/-!
Verification of the UNETR-style segmentation decoder and the metric
aggregation / epoch-boundary protocol of `src/model.py`.

The development has two layers.

* A shape layer: each `nn` block of `model.py` is embedded as a partial
  function on 4-D tensor shapes `(n, c, h, w)` (an `Option TShape`),
  following PyTorch's documented shape semantics for `Conv2d`,
  `ConvTranspose2d`, `BatchNorm2d`, `ReLU` and `torch.cat`.  A block
  application fails (`none`) exactly when PyTorch would raise at runtime
  (channel mismatch, invalid group/channel combination, spatial size
  smaller than the effective kernel, concatenation of spatially unequal
  operands).

* A metric/state layer: the mutable per-phase accumulator state of
  `SegmentationModel` / `ClassificationModel` (`val_metrics`,
  `test_metrics`, `dice_score`, `validation_step_outputs`) is embedded as
  an explicit state record, and `training_step`, `validation_step`,
  `test_step`, `on_validation_epoch_end`, `on_test_epoch_end` become
  explicit state-passing functions.  Probabilities are carried as exact
  rationals: the code computes `probs = torch.sigmoid(logits)` and every
  later consumer of the buffered logits re-applies the same sigmoid
  (`smp_utils.metrics.Fscore(activation='sigmoid')`), so the embedding
  carries the probability tensors themselves and the activation step is
  the identity on them.
-/

namespace Model

/-- Shape of a 4-D tensor `(batch, channels, height, width)`. -/
structure TShape where
  n : ℕ
  c : ℕ
  h : ℕ
  w : ℕ
  deriving DecidableEq, Repr

/-- Shape semantics of `nn.Conv2d(inP, outP, kernel_size=k, stride=1,
padding=p, groups=g)`: requires positive channel counts, `g` dividing both
channel counts, the input channel count to match, and the padded spatial
extent to be at least the kernel; output spatial size is
`h + 2p - k + 1` (stride 1). -/
def conv2d (inP outP k p g : ℕ) (s : TShape) : Option TShape :=
  if 0 < inP ∧ 0 < outP ∧ 0 < g ∧ 0 < k ∧ inP % g = 0 ∧ outP % g = 0 ∧
     s.c = inP ∧ k ≤ s.h + 2 * p ∧ k ≤ s.w + 2 * p then
    some ⟨s.n, outP, s.h + 2 * p - k + 1, s.w + 2 * p - k + 1⟩
  else none

/-- Shape semantics of `nn.ConvTranspose2d(inP, outP, kernel_size=2,
stride=2, padding=0, output_padding=0, groups=g)`: output spatial size is
`(h - 1) * 2 + 2 = 2h` (for `h ≥ 1`); it exactly doubles height and
width. -/
def convTranspose2d (inP outP g : ℕ) (s : TShape) : Option TShape :=
  if 0 < inP ∧ 0 < outP ∧ 0 < g ∧ inP % g = 0 ∧ outP % g = 0 ∧
     s.c = inP ∧ 0 < s.h ∧ 0 < s.w then
    some ⟨s.n, outP, 2 * s.h, 2 * s.w⟩
  else none

/-- Shape semantics of `nn.BatchNorm2d(c)`: checks the channel count and
preserves the shape. -/
def batchNorm2d (c : ℕ) (s : TShape) : Option TShape :=
  if s.c = c then some s else none

/-- `nn.ReLU` preserves the shape. -/
def relu (s : TShape) : Option TShape := some s

/-- Shape semantics of `torch.cat([a, b], dim=1)`: requires equality of
all non-channel dimensions and adds the channel counts.  The first
argument is the first (shallower-branch) operand. -/
def cat2 (a b : TShape) : Option TShape :=
  if a.n = b.n ∧ a.h = b.h ∧ a.w = b.w then
    some ⟨a.n, a.c + b.c, a.h, a.w⟩
  else none

/-- `SingleDeconv2DBlock(in_planes, out_planes, groups)`:
one `ConvTranspose2d` with kernel 2, stride 2, no padding. -/
def SingleDeconv2DBlock (in_planes out_planes groups : ℕ) (s : TShape) :
    Option TShape :=
  convTranspose2d in_planes out_planes groups s

/-- `SingleConv2DBlock(in_planes, out_planes, kernel_size, groups)`:
one `Conv2d` with stride 1 and padding `(kernel_size - 1) // 2`. -/
def SingleConv2DBlock (in_planes out_planes kernel_size groups : ℕ)
    (s : TShape) : Option TShape :=
  conv2d in_planes out_planes kernel_size ((kernel_size - 1) / 2) groups s

/-- `Conv2DBlock(in_planes, out_planes, kernel_size)`: depthwise conv →
batch-norm → ReLU → pointwise 1×1 conv → batch-norm → ReLU. -/
def Conv2DBlock (in_planes out_planes kernel_size : ℕ) (s : TShape) :
    Option TShape :=
  SingleConv2DBlock in_planes in_planes kernel_size in_planes s >>=
    batchNorm2d in_planes >>= relu >>=
    SingleConv2DBlock in_planes out_planes 1 1 >>=
    batchNorm2d out_planes >>= relu

/-- `Deconv2DBlock(in_planes, out_planes, kernel_size)`: depthwise
transposed conv (doubling) → depthwise conv → batch-norm → ReLU →
pointwise 1×1 conv → batch-norm → ReLU. -/
def Deconv2DBlock (in_planes out_planes kernel_size : ℕ) (s : TShape) :
    Option TShape :=
  SingleDeconv2DBlock in_planes in_planes in_planes s >>=
    SingleConv2DBlock in_planes in_planes kernel_size in_planes >>=
    batchNorm2d in_planes >>= relu >>=
    SingleConv2DBlock in_planes out_planes 1 1 >>=
    batchNorm2d out_planes >>= relu

/-- `SingleDWConv2DBlock(in_planes, out_planes)`: depthwise transposed
conv (doubling) → pointwise 1×1 conv. -/
def SingleDWConv2DBlock (in_planes out_planes : ℕ) (s : TShape) :
    Option TShape :=
  SingleDeconv2DBlock in_planes in_planes in_planes s >>=
    SingleConv2DBlock in_planes out_planes 1 1

/-- `UNETR.decoder0`: two same-size conv blocks
`input_dim → init_filters → init_filters`. -/
def decoder0 (input_dim init_filters : ℕ) (s : TShape) : Option TShape :=
  Conv2DBlock input_dim init_filters 3 s >>=
    Conv2DBlock init_filters init_filters 3

/-- `UNETR.decoder3`: three chained deconv blocks
`transformer_width → 8f → 4f → 2f`. -/
def decoder3 (transformer_width init_filters : ℕ) (s : TShape) :
    Option TShape :=
  Deconv2DBlock transformer_width (8 * init_filters) 3 s >>=
    Deconv2DBlock (8 * init_filters) (4 * init_filters) 3 >>=
    Deconv2DBlock (4 * init_filters) (2 * init_filters) 3

/-- `UNETR.decoder6`: two chained deconv blocks
`transformer_width → 8f → 4f`. -/
def decoder6 (transformer_width init_filters : ℕ) (s : TShape) :
    Option TShape :=
  Deconv2DBlock transformer_width (8 * init_filters) 3 s >>=
    Deconv2DBlock (8 * init_filters) (4 * init_filters) 3

/-- `UNETR.decoder9`: one deconv block `transformer_width → 8f`. -/
def decoder9 (transformer_width init_filters : ℕ) (s : TShape) :
    Option TShape :=
  Deconv2DBlock transformer_width (8 * init_filters) 3 s

/-- `UNETR.decoder12_upsampler`: one upsample-and-project block
`transformer_width → 8f`. -/
def decoder12_upsampler (transformer_width init_filters : ℕ) (s : TShape) :
    Option TShape :=
  SingleDWConv2DBlock transformer_width (8 * init_filters) s

/-- `UNETR.decoder9_upsampler`: three same-size conv blocks
`16f → 8f → 8f → 8f`, then upsample-and-project `8f → 4f`. -/
def decoder9_upsampler (init_filters : ℕ) (s : TShape) : Option TShape :=
  Conv2DBlock (16 * init_filters) (8 * init_filters) 3 s >>=
    Conv2DBlock (8 * init_filters) (8 * init_filters) 3 >>=
    Conv2DBlock (8 * init_filters) (8 * init_filters) 3 >>=
    SingleDWConv2DBlock (8 * init_filters) (4 * init_filters)

/-- `UNETR.decoder6_upsampler`: two same-size conv blocks
`8f → 4f → 4f`, then upsample-and-project `4f → 2f`. -/
def decoder6_upsampler (init_filters : ℕ) (s : TShape) : Option TShape :=
  Conv2DBlock (8 * init_filters) (4 * init_filters) 3 s >>=
    Conv2DBlock (4 * init_filters) (4 * init_filters) 3 >>=
    SingleDWConv2DBlock (4 * init_filters) (2 * init_filters)

/-- `UNETR.decoder3_upsampler`: two same-size conv blocks
`4f → 2f → 2f`, then upsample-and-project `2f → f`. -/
def decoder3_upsampler (init_filters : ℕ) (s : TShape) : Option TShape :=
  Conv2DBlock (4 * init_filters) (2 * init_filters) 3 s >>=
    Conv2DBlock (2 * init_filters) (2 * init_filters) 3 >>=
    SingleDWConv2DBlock (2 * init_filters) init_filters

/-- `UNETR.decoder0_header`: two same-size conv blocks `2f → f → f`, then
a final 1×1 conv to `output_dim` channels. -/
def decoder0_header (output_dim init_filters : ℕ) (s : TShape) :
    Option TShape :=
  Conv2DBlock (2 * init_filters) init_filters 3 s >>=
    Conv2DBlock init_filters init_filters 3 >>=
    SingleConv2DBlock init_filters output_dim 1 1

/-- `UNETR.forward`: deepest-to-shallowest fusion of the five pyramid
levels, mirroring the source line for line. -/
def UNETR_forward (transformer_width output_dim input_dim init_filters : ℕ)
    (z0 z3 z6 z9 z12 : TShape) : Option TShape := do
  let z12 ← decoder12_upsampler transformer_width init_filters z12
  let z9 ← decoder9 transformer_width init_filters z9
  let z9 ← cat2 z9 z12 >>= decoder9_upsampler init_filters
  let z6 ← decoder6 transformer_width init_filters z6
  let z6 ← cat2 z6 z9 >>= decoder6_upsampler init_filters
  let z3 ← decoder3 transformer_width init_filters z3
  let z3 ← cat2 z3 z6 >>= decoder3_upsampler init_filters
  let z0 ← decoder0 input_dim init_filters z0
  let output ← cat2 z0 z3 >>= decoder0_header output_dim init_filters
  return output

/-! ### Metric/state layer

The mutable accumulator attributes of the two Lightning modules become an
explicit state record; each hook becomes a state-passing function.  The
tensors carried in a batch are the post-forward sigmoid probabilities and
the ground-truth masks: the code computes `probs = torch.sigmoid(logits)`
and the only later consumer of the buffered raw logits,
`smp_utils.metrics.Fscore(activation='sigmoid')`, applies the same
sigmoid again, so carrying the probability tensors and making the
activation step the identity on them is extensionally faithful. -/

/-- `self.pixel_treshold = 1000` (spelling as in the source). -/
def pixel_treshold : ℕ := 1000

/-- One sample of a segmentation batch after the forward pass.  `probs`
and `mask` are indexed by channel (dim 1), each channel holding the
flattened spatial pixels (dims 2 and 3); `labels` holds the per-channel
entries of the sample row of `batch["label"]`. -/
structure SegSample where
  probs : List (List ℚ)
  mask : List (List ℚ)
  labels : List Bool
  deriving DecidableEq, Repr

/-- Foreground pixel count of one channel slice:
`(probs > 0.5).sum((2, 3))`, one entry of the summed tensor. -/
def foregroundCount (ch : List ℚ) : ℕ :=
  ch.countP (fun p => decide ((1 : ℚ)/2 < p))

/-- Derived classification label of one channel slice:
`((probs > 0.5).sum((2, 3)) > self.pixel_treshold).to(torch.int64)`,
computed identically in `validation_step` and `test_step`. -/
def segPredLabel (ch : List ℚ) : ℤ :=
  if pixel_treshold < foregroundCount ch then 1 else 0

/-- Running sufficient statistics of the binary `MetricCollection`
(torchmetrics keeps tp/fp/tn/fn counters behind
accuracy/recall/f1/precision/specificity/confmat). -/
structure ConfCounts where
  tp : ℕ
  fp : ℕ
  tn : ℕ
  fn : ℕ
  deriving DecidableEq, Repr

def ConfCounts.init : ConfCounts := ⟨0, 0, 0, 0⟩

/-- Fold one (prediction, target) pair into the running statistics. -/
def ConfCounts.update1 (c : ConfCounts) (pred target : Bool) : ConfCounts :=
  match pred, target with
  | true, true => { c with tp := c.tp + 1 }
  | true, false => { c with fp := c.fp + 1 }
  | false, true => { c with fn := c.fn + 1 }
  | false, false => { c with tn := c.tn + 1 }

/-- `MetricCollection.update` over a list of (prediction, target) pairs. -/
def ConfCounts.update (c : ConfCounts) (l : List (Bool × Bool)) : ConfCounts :=
  l.foldl (fun a q => a.update1 q.1 q.2) c

/-- torchmetrics division: its internal safe division returns 0 on a zero
denominator instead of raising. -/
def safeDiv (a b : ℚ) : ℚ := if b = 0 then 0 else a / b

/-- Reduced scalar metrics and the 2×2 confusion matrix, flattened
row-major as `(tn, fp, fn, tp)` (row = true class, column = predicted
class, as torchmetrics lays it out). -/
structure Metrics where
  accuracy : ℚ
  «recall» : ℚ
  f1 : ℚ
  precision : ℚ
  specificity : ℚ
  confmat : ℕ × ℕ × ℕ × ℕ
  deriving DecidableEq, Repr

/-- `MetricCollection.compute` from the running counters. -/
def computeMetrics (c : ConfCounts) : Metrics :=
  { accuracy := safeDiv ((c.tp : ℚ) + c.tn) ((c.tp : ℚ) + c.fp + c.tn + c.fn)
    «recall» := safeDiv (c.tp : ℚ) ((c.tp : ℚ) + c.fn)
    f1 := safeDiv (2 * (c.tp : ℚ)) (2 * (c.tp : ℚ) + c.fp + c.fn)
    precision := safeDiv (c.tp : ℚ) ((c.tp : ℚ) + c.fp)
    specificity := safeDiv (c.tn : ℚ) ((c.tn : ℚ) + c.fp)
    confmat := (c.tn, c.fp, c.fn, c.tp) }

/-- One per-sample entry appended by `DiceScore.update`: intersection and
cardinality sums of the foreground classes. -/
structure DiceStat where
  num : ℚ
  den : ℚ
  deriving DecidableEq, Repr

def dotSum (a b : List ℚ) : ℚ := ((a.zip b).map (fun q => q.1 * q.2)).sum

/-- `(probs > 0.5)` cast to numbers: hard mask of one channel slice. -/
def hardMask (ch : List ℚ) : List ℚ :=
  ch.map (fun p => if (1 : ℚ)/2 < p then 1 else 0)

/-- `DiceScore(num_classes=..., include_background=False).update(pred_mask, y)`
statistics of one sample: `include_background=False` removes class
channel 0; the remaining channels are pooled (micro averaging, the
torchmetrics default). -/
def sampleDiceStat (s : SegSample) : DiceStat :=
  let pred := ((s.probs.map hardMask).drop 1).flatten
  let tgt := (s.mask.drop 1).flatten
  { num := dotSum pred tgt, den := pred.sum + tgt.sum }

/-- `DiceScore.compute`: torchmetrics averages the per-sample dice
scores over the accumulated samples (the default samplewise aggregation;
micro averaging pools only the classes within one sample, as
`sampleDiceStat` does), with safe division at both levels. -/
def diceCompute (l : List DiceStat) : ℚ :=
  safeDiv ((l.map (fun d => safeDiv (2 * d.num) d.den)).sum) (l.length : ℚ)

/-- The `eps` default of `smp_utils.metrics.Fscore`. -/
def smpEps : ℚ := 1 / 10000000

/-- `smp_utils.metrics.Fscore(activation='sigmoid')` on flattened
prediction/target tensors: the default `threshold=0.5` hardens the
activated prediction by a strict comparison, then with `beta = 1` the
score is `(2 tp + eps) / (2 tp + fn + fp + eps)` where `tp` is the sum of
the elementwise product and `fp`, `fn` are the remaining prediction and
target masses. -/
def smp_fscore (pr gt : List ℚ) : ℚ :=
  let prt := hardMask pr
  let tp := dotSum prt gt
  let fp := prt.sum - tp
  let fn := gt.sum - tp
  (2 * tp + smpEps) / (2 * tp + fn + fp + smpEps)

/-- Mutable accumulator attributes of `SegmentationModel`: `val_metrics`,
`test_metrics`, `dice_score`, `validation_step_outputs`.  The model owns a
single `dice_score` object and a single `validation_step_outputs` list,
and both the validation and the test hooks use those same two
attributes. -/
structure SegState where
  val_metrics : ConfCounts
  test_metrics : ConfCounts
  dice_score : List DiceStat
  validation_step_outputs : List (List SegSample)
  deriving DecidableEq, Repr

def SegState.init : SegState := ⟨ConfCounts.init, ConfCounts.init, [], []⟩

/-- Per-channel (prediction, target) pairs fed to
`val_metrics.update(pred_label, label)` and
`test_metrics.update(pred_label, label)`. -/
def sampleConfPairs (s : SegSample) : List (Bool × Bool) :=
  (s.probs.map (fun ch => decide (segPredLabel ch = 1))).zip s.labels

/-- `SegmentationModel.validation_step`: updates `val_metrics` with the
threshold-derived labels, appends the per-sample Dice statistics to
`dice_score`, and appends the detached batch tensors to
`validation_step_outputs`. -/
def seg_validation_step (st : SegState) (batch : List SegSample) : SegState :=
  { st with
    val_metrics := st.val_metrics.update ((batch.map sampleConfPairs).flatten)
    dice_score := st.dice_score ++ batch.map sampleDiceStat
    validation_step_outputs := st.validation_step_outputs ++ [batch] }

/-- `SegmentationModel.test_step`: same updates as `validation_step`, with
`test_metrics` in place of `val_metrics` but the same `dice_score` and
`validation_step_outputs` objects. -/
def seg_test_step (st : SegState) (batch : List SegSample) : SegState :=
  { st with
    test_metrics := st.test_metrics.update ((batch.map sampleConfPairs).flatten)
    dice_score := st.dice_score ++ batch.map sampleDiceStat
    validation_step_outputs := st.validation_step_outputs ++ [batch] }

/-- MONAI `GeneralizedDiceLoss(sigmoid=True)` pooled over the batch.  The
spec treats the loss as a pluggable black-box scalar reducer; no claim
depends on its value. -/
def generalizedDiceLoss (p t : List ℚ) : ℚ :=
  let w := safeDiv 1 (t.sum * t.sum)
  1 - (2 * (w * dotSum p t) + 1/100000) / (w * (p.sum + t.sum) + 1/100000)

/-- `SegmentationModel.training_step`: computes and logs the loss and the
per-batch `train_dsc` F-score and returns the loss; no metric accumulator
is updated. -/
def seg_training_step (st : SegState) (batch : List SegSample) :
    SegState × ℚ × ℚ :=
  let pr := (batch.map (fun s => s.probs.flatten)).flatten
  let y := (batch.map (fun s => s.mask.flatten)).flatten
  (st, generalizedDiceLoss pr y, smp_fscore pr y)

/-- `torch.cat` over the buffered list of batch tensors: raises on an
empty list, otherwise concatenates along the batch dimension. -/
def torchCat (l : List (List SegSample)) : Except String (List SegSample) :=
  if l.isEmpty then
    Except.error "torch.cat on an empty list of tensors"
  else Except.ok l.flatten

/-- What the segmentation epoch end emits: the reduced collection metrics,
the Dice score `val_dsc`/`test_dsc`, and the recomputed full-epoch F-score
`val_smp`/`test_smp`. -/
structure SegEpochResult where
  metrics : Metrics
  dsc : ℚ
  smp : ℚ
  deriving DecidableEq, Repr

/-- `SegmentationModel.on_validation_epoch_end`.  The source computes the
reduced metrics, resets `val_metrics`, computes `dice_score` and resets
it, drains `validation_step_outputs` into local lists and clears it, and
then calls `torch.cat` on the drained list, which raises exactly when it
is empty.  On a fully empty phase the program raises slightly earlier, in
`DiceScore.compute` (concatenation of its empty list state); both raise
points fire under exactly the same condition (no step ran), so the
embedding collapses them into the single `torchCat` failure with the same
observable outcome.  Every reset precedes the possible raise, so the
returned state is always the fully reset one. -/
def seg_on_validation_epoch_end (st : SegState) :
    Except String SegEpochResult × SegState :=
  let results := computeMetrics st.val_metrics
  let dsc := diceCompute st.dice_score
  let res := do
    let all ← torchCat st.validation_step_outputs
    let logits := (all.map (fun s => s.probs.flatten)).flatten
    let targets := (all.map (fun s => s.mask.flatten)).flatten
    pure { metrics := results, dsc := dsc, smp := smp_fscore logits targets }
  (res, { st with val_metrics := ConfCounts.init, dice_score := [],
                  validation_step_outputs := [] })

/-- `SegmentationModel.on_test_epoch_end`: as the validation epoch end,
with `test_metrics` in place of `val_metrics`, including the collapsed
empty-phase raise (first in `DiceScore.compute`, then `torch.cat`; the
embedding keeps the single `torchCat` failure). -/
def seg_on_test_epoch_end (st : SegState) :
    Except String SegEpochResult × SegState :=
  let results := computeMetrics st.test_metrics
  let dsc := diceCompute st.dice_score
  let res := do
    let all ← torchCat st.validation_step_outputs
    let preds := (all.map (fun s => s.probs.flatten)).flatten
    let targets := (all.map (fun s => s.mask.flatten)).flatten
    pure { metrics := results, dsc := dsc, smp := smp_fscore preds targets }
  (res, { st with test_metrics := ConfCounts.init, dice_score := [],
                  validation_step_outputs := [] })

/-- One validation epoch as driven by the trainer loop: a
`validation_step` per batch. -/
def seg_run_validation_epoch (st : SegState) (bs : List (List SegSample)) :
    SegState :=
  bs.foldl seg_validation_step st

/-- Observer: gap between the recomputed full-epoch F-score and the
incrementally tracked Dice metric after running a batch sequence from the
initial state (`none` when the epoch end raises). -/
def smpDscGap (bs : List (List SegSample)) : Option ℚ :=
  match (seg_on_validation_epoch_end (seg_run_validation_epoch SegState.init bs)).1 with
  | Except.ok r => some |r.smp - r.dsc|
  | Except.error _ => none

/-- Observer: the `val_dsc` value emitted by the validation epoch end. -/
def valEpochDsc (st : SegState) : Option ℚ :=
  match (seg_on_validation_epoch_end st).1 with
  | Except.ok r => some r.dsc
  | Except.error _ => none

/-- One classification sample after the linear head: the sigmoid output
probability and the float target from `batch["label"]`. -/
structure ClsSample where
  prob : ℚ
  y : ℚ
  deriving DecidableEq, Repr

/-- Mutable accumulator attributes of `ClassificationModel`:
`val_metrics` and `test_metrics`. -/
structure ClsState where
  val_metrics : ConfCounts
  test_metrics : ConfCounts
  deriving DecidableEq, Repr

def ClsState.init : ClsState := ⟨ConfCounts.init, ConfCounts.init⟩

/-- Pairs fed to the binary metrics by `update(probs, y)`: torchmetrics
thresholds the probability at 0.5 (strict) and reads the target as its
0/1 value. -/
def clsConfPairs (batch : List ClsSample) : List (Bool × Bool) :=
  batch.map (fun s => (decide ((1 : ℚ)/2 < s.prob), decide (s.y = 1)))

/-- `ClassificationModel.validation_step`. -/
def cls_validation_step (st : ClsState) (batch : List ClsSample) : ClsState :=
  { st with val_metrics := st.val_metrics.update (clsConfPairs batch) }

/-- `ClassificationModel.test_step`. -/
def cls_test_step (st : ClsState) (batch : List ClsSample) : ClsState :=
  { st with test_metrics := st.test_metrics.update (clsConfPairs batch) }

/-- `nn.BCEWithLogitsLoss` on the logits equals, expressed through the
sigmoid probabilities p, the mean of `-(y log p + (1 - y) log (1 - p))`. -/
noncomputable def bceWithLogitsLoss (batch : List ClsSample) : ℝ :=
  (batch.map (fun s =>
      -((s.y : ℝ) * Real.log (s.prob : ℝ) +
        (1 - (s.y : ℝ)) * Real.log (1 - (s.prob : ℝ))))).sum /
    (batch.length : ℝ)

/-- `ClassificationModel.training_step`: computes and logs the loss and
returns it; no metric accumulator is touched. -/
noncomputable def cls_training_step (st : ClsState) (batch : List ClsSample) :
    ClsState × ℝ :=
  (st, bceWithLogitsLoss batch)

/-- `ClassificationModel.on_validation_epoch_end`: every reduction is a
safe division over the (possibly zero) counters and the confusion matrix
of an empty accumulator is the zero matrix, so no operation on this path
raises even when no batch was ever accumulated; torchmetrics emits a
warning, not an error. -/
def cls_on_validation_epoch_end (st : ClsState) :
    Except String Metrics × ClsState :=
  (Except.ok (computeMetrics st.val_metrics),
   { st with val_metrics := ConfCounts.init })

/-- `ClassificationModel.on_test_epoch_end`. -/
def cls_on_test_epoch_end (st : ClsState) :
    Except String Metrics × ClsState :=
  (Except.ok (computeMetrics st.test_metrics),
   { st with test_metrics := ConfCounts.init })

/-! ### Shape-layer helper lemmas -/

theorem singleConv_odd (i o k g n h w : ℕ) (hi : 0 < i) (ho : 0 < o)
    (hg : 0 < g) (hig : i % g = 0) (hog : o % g = 0) (hk : k % 2 = 1)
    (hh : 0 < h) (hw : 0 < w) :
    SingleConv2DBlock i o k g ⟨n, i, h, w⟩ = some ⟨n, o, h, w⟩ := by
  have e1 : h + 2 * ((k - 1) / 2) - k + 1 = h := by omega
  have e2 : w + 2 * ((k - 1) / 2) - k + 1 = w := by omega
  simp only [SingleConv2DBlock, conv2d]
  rw [if_pos ⟨hi, ho, hg, by omega, hig, hog, trivial, by omega, by omega⟩]
  rw [e1, e2]

theorem convT_self (i n h w : ℕ) (hi : 0 < i) (hh : 0 < h)
    (hw : 0 < w) :
    convTranspose2d i i i ⟨n, i, h, w⟩ = some ⟨n, i, 2 * h, 2 * w⟩ := by
  simp only [convTranspose2d]
  rw [if_pos ⟨hi, hi, hi, Nat.mod_self i, Nat.mod_self i, trivial, hh, hw⟩]

theorem conv2DBlock_shape (i o k n h w : ℕ) (hi : 0 < i) (ho : 0 < o)
    (hk : k % 2 = 1) (hh : 0 < h) (hw : 0 < w) :
    Conv2DBlock i o k ⟨n, i, h, w⟩ = some ⟨n, o, h, w⟩ := by
  have h1 := singleConv_odd i i k i n h w hi hi hi (Nat.mod_self i)
    (Nat.mod_self i) hk hh hw
  have h2 := singleConv_odd i o 1 1 n h w hi ho one_pos (Nat.mod_one i)
    (Nat.mod_one o) rfl hh hw
  simp [Conv2DBlock, h1, h2, batchNorm2d, relu]

theorem deconv2DBlock_shape (i o k n h w : ℕ) (hi : 0 < i) (ho : 0 < o)
    (hk : k % 2 = 1) (hh : 0 < h) (hw : 0 < w) :
    Deconv2DBlock i o k ⟨n, i, h, w⟩ = some ⟨n, o, 2 * h, 2 * w⟩ := by
  have h0 := convT_self i n h w hi hh hw
  have h1 := singleConv_odd i i k i n (2 * h) (2 * w) hi hi hi
    (Nat.mod_self i) (Nat.mod_self i) hk (by omega) (by omega)
  have h2 := singleConv_odd i o 1 1 n (2 * h) (2 * w) hi ho one_pos
    (Nat.mod_one i) (Nat.mod_one o) rfl (by omega) (by omega)
  simp [Deconv2DBlock, SingleDeconv2DBlock, h0, h1, h2, batchNorm2d, relu]

theorem singleDW_shape (i o n h w : ℕ) (hi : 0 < i) (ho : 0 < o)
    (hh : 0 < h) (hw : 0 < w) :
    SingleDWConv2DBlock i o ⟨n, i, h, w⟩ = some ⟨n, o, 2 * h, 2 * w⟩ := by
  have h0 := convT_self i n h w hi hh hw
  have h1 := singleConv_odd i o 1 1 n (2 * h) (2 * w) hi ho one_pos
    (Nat.mod_one i) (Nat.mod_one o) rfl (by omega) (by omega)
  simp [SingleDWConv2DBlock, SingleDeconv2DBlock, h0, h1]

theorem cat2_eq (n c1 c2 h w : ℕ) :
    cat2 ⟨n, c1, h, w⟩ ⟨n, c2, h, w⟩ = some ⟨n, c1 + c2, h, w⟩ := by
  simp [cat2]

theorem decoder12_upsampler_shape (tw f n S : ℕ) (htw : 0 < tw)
    (hf : 0 < f) (hS : 0 < S) :
    decoder12_upsampler tw f ⟨n, tw, S, S⟩ = some ⟨n, 8 * f, 2 * S, 2 * S⟩ := by
  simpa [decoder12_upsampler] using
    singleDW_shape tw (8 * f) n S S htw (by positivity) hS hS

theorem decoder9_shape (tw f n S : ℕ) (htw : 0 < tw) (hf : 0 < f)
    (hS : 0 < S) :
    decoder9 tw f ⟨n, tw, S, S⟩ = some ⟨n, 8 * f, 2 * S, 2 * S⟩ := by
  simpa [decoder9] using
    deconv2DBlock_shape tw (8 * f) 3 n S S htw (by positivity) rfl hS hS

theorem decoder9_upsampler_shape (f n S : ℕ) (hf : 0 < f) (hS : 0 < S) :
    decoder9_upsampler f ⟨n, 16 * f, 2 * S, 2 * S⟩ =
      some ⟨n, 4 * f, 4 * S, 4 * S⟩ := by
  have h1 := conv2DBlock_shape (16 * f) (8 * f) 3 n (2 * S) (2 * S)
    (by positivity) (by positivity) rfl (by omega) (by omega)
  have h2 := conv2DBlock_shape (8 * f) (8 * f) 3 n (2 * S) (2 * S)
    (by positivity) (by positivity) rfl (by omega) (by omega)
  have h3 := singleDW_shape (8 * f) (4 * f) n (2 * S) (2 * S)
    (by positivity) (by positivity) (by omega) (by omega)
  simp only [show 2 * (2 * S) = 4 * S from by ring] at h3
  simp [decoder9_upsampler, h1, h2, h3]

theorem decoder6_shape (tw f n S : ℕ) (htw : 0 < tw) (hf : 0 < f)
    (hS : 0 < S) :
    decoder6 tw f ⟨n, tw, S, S⟩ = some ⟨n, 4 * f, 4 * S, 4 * S⟩ := by
  have h1 := deconv2DBlock_shape tw (8 * f) 3 n S S htw (by positivity)
    rfl hS hS
  have h2 := deconv2DBlock_shape (8 * f) (4 * f) 3 n (2 * S) (2 * S)
    (by positivity) (by positivity) rfl (by omega) (by omega)
  simp only [show 2 * (2 * S) = 4 * S from by ring] at h2
  simp [decoder6, h1, h2]

theorem decoder6_upsampler_shape (f n S : ℕ) (hf : 0 < f) (hS : 0 < S) :
    decoder6_upsampler f ⟨n, 8 * f, 4 * S, 4 * S⟩ =
      some ⟨n, 2 * f, 8 * S, 8 * S⟩ := by
  have h1 := conv2DBlock_shape (8 * f) (4 * f) 3 n (4 * S) (4 * S)
    (by positivity) (by positivity) rfl (by omega) (by omega)
  have h2 := conv2DBlock_shape (4 * f) (4 * f) 3 n (4 * S) (4 * S)
    (by positivity) (by positivity) rfl (by omega) (by omega)
  have h3 := singleDW_shape (4 * f) (2 * f) n (4 * S) (4 * S)
    (by positivity) (by positivity) (by omega) (by omega)
  simp only [show 2 * (4 * S) = 8 * S from by ring] at h3
  simp [decoder6_upsampler, h1, h2, h3]

theorem decoder3_shape (tw f n S : ℕ) (htw : 0 < tw) (hf : 0 < f)
    (hS : 0 < S) :
    decoder3 tw f ⟨n, tw, S, S⟩ = some ⟨n, 2 * f, 8 * S, 8 * S⟩ := by
  have h1 := deconv2DBlock_shape tw (8 * f) 3 n S S htw (by positivity)
    rfl hS hS
  have h2 := deconv2DBlock_shape (8 * f) (4 * f) 3 n (2 * S) (2 * S)
    (by positivity) (by positivity) rfl (by omega) (by omega)
  simp only [show 2 * (2 * S) = 4 * S from by ring] at h2
  have h3 := deconv2DBlock_shape (4 * f) (2 * f) 3 n (4 * S) (4 * S)
    (by positivity) (by positivity) rfl (by omega) (by omega)
  simp only [show 2 * (4 * S) = 8 * S from by ring] at h3
  simp [decoder3, h1, h2, h3]

theorem decoder3_upsampler_shape (f n S : ℕ) (hf : 0 < f) (hS : 0 < S) :
    decoder3_upsampler f ⟨n, 4 * f, 8 * S, 8 * S⟩ =
      some ⟨n, f, 16 * S, 16 * S⟩ := by
  have h1 := conv2DBlock_shape (4 * f) (2 * f) 3 n (8 * S) (8 * S)
    (by positivity) (by positivity) rfl (by omega) (by omega)
  have h2 := conv2DBlock_shape (2 * f) (2 * f) 3 n (8 * S) (8 * S)
    (by positivity) (by positivity) rfl (by omega) (by omega)
  have h3 := singleDW_shape (2 * f) f n (8 * S) (8 * S)
    (by positivity) hf (by omega) (by omega)
  simp only [show 2 * (8 * S) = 16 * S from by ring] at h3
  simp [decoder3_upsampler, h1, h2, h3]

theorem decoder0_shape (idim f n h w : ℕ) (hid : 0 < idim) (hf : 0 < f)
    (hh : 0 < h) (hw : 0 < w) :
    decoder0 idim f ⟨n, idim, h, w⟩ = some ⟨n, f, h, w⟩ := by
  have h1 := conv2DBlock_shape idim f 3 n h w hid hf rfl hh hw
  have h2 := conv2DBlock_shape f f 3 n h w hf hf rfl hh hw
  simp [decoder0, h1, h2]

theorem decoder0_header_shape (od f n h w : ℕ) (hod : 0 < od) (hf : 0 < f)
    (hh : 0 < h) (hw : 0 < w) :
    decoder0_header od f ⟨n, 2 * f, h, w⟩ = some ⟨n, od, h, w⟩ := by
  have h1 := conv2DBlock_shape (2 * f) f 3 n h w (by positivity) hf rfl hh hw
  have h2 := conv2DBlock_shape f f 3 n h w hf hf rfl hh hw
  have h3 := singleConv_odd f od 1 1 n h w hf hod one_pos (Nat.mod_one f)
    (Nat.mod_one od) rfl hh hw
  simp [decoder0_header, h1, h2, h3]

/-- Claim C2: for every valid `(transformer_width, init_filters,
input_dim, output_dim)` and every feature pyramid in which `z3, z6, z9,
z12` share spatial size `S` (channels `transformer_width`) and `z0` has
spatial size `16×S` (channels `input_dim`), the decoder forward pass
succeeds — every channel-axis concatenation has spatially equal
operands — and returns a tensor of shape
`(batch, output_dim, 16×S, 16×S)`. -/
theorem UNETR_forward_shape (tw od idim f n S : ℕ) (htw : 0 < tw)
    (hod : 0 < od) (hid : 0 < idim) (hf : 0 < f) (hS : 0 < S) :
    UNETR_forward tw od idim f ⟨n, idim, 16 * S, 16 * S⟩ ⟨n, tw, S, S⟩
      ⟨n, tw, S, S⟩ ⟨n, tw, S, S⟩ ⟨n, tw, S, S⟩ =
      some ⟨n, od, 16 * S, 16 * S⟩ := by
  have h12 := decoder12_upsampler_shape tw f n S htw hf hS
  have h9 := decoder9_shape tw f n S htw hf hS
  have hc9 := cat2_eq n (8 * f) (8 * f) (2 * S) (2 * S)
  simp only [show 8 * f + 8 * f = 16 * f from by ring] at hc9
  have h9u := decoder9_upsampler_shape f n S hf hS
  have h6 := decoder6_shape tw f n S htw hf hS
  have hc6 := cat2_eq n (4 * f) (4 * f) (4 * S) (4 * S)
  simp only [show 4 * f + 4 * f = 8 * f from by ring] at hc6
  have h6u := decoder6_upsampler_shape f n S hf hS
  have h3 := decoder3_shape tw f n S htw hf hS
  have hc3 := cat2_eq n (2 * f) (2 * f) (8 * S) (8 * S)
  simp only [show 2 * f + 2 * f = 4 * f from by ring] at hc3
  have h3u := decoder3_upsampler_shape f n S hf hS
  have h0 := decoder0_shape idim f n (16 * S) (16 * S) hid hf
    (by omega) (by omega)
  have hc0 := cat2_eq n f f (16 * S) (16 * S)
  simp only [show f + f = 2 * f from by ring] at hc0
  have h0h := decoder0_header_shape od f n (16 * S) (16 * S) hod hf
    (by omega) (by omega)
  simp [UNETR_forward, h12, h9, hc9, h9u, h6, hc6, h6u, h3, hc3, h3u,
    h0, hc0, h0h]

/-! ### Metric-layer helper lemmas -/

theorem confUpdate_append (c : ConfCounts) (l1 l2 : List (Bool × Bool)) :
    c.update (l1 ++ l2) = (c.update l1).update l2 := by
  simp [ConfCounts.update, List.foldl_append]

theorem run_step_cons (st : SegState) (b : List SegSample)
    (t : List (List SegSample)) :
    seg_run_validation_epoch st (b :: t) =
      seg_run_validation_epoch (seg_validation_step st b) t := rfl

theorem run_test_metrics (st : SegState) (bs : List (List SegSample)) :
    (seg_run_validation_epoch st bs).test_metrics = st.test_metrics := by
  induction bs generalizing st with
  | nil => rfl
  | cons b t ih => rw [run_step_cons, ih]; rfl

theorem run_val_metrics (st : SegState) (bs : List (List SegSample)) :
    (seg_run_validation_epoch st bs).val_metrics =
      st.val_metrics.update ((bs.flatten.map sampleConfPairs).flatten) := by
  induction bs generalizing st with
  | nil => rfl
  | cons b t ih =>
    rw [run_step_cons, ih]
    simp [seg_validation_step, List.map_append, List.flatten_append,
      ← confUpdate_append]

theorem run_dice_score (st : SegState) (bs : List (List SegSample)) :
    (seg_run_validation_epoch st bs).dice_score =
      st.dice_score ++ bs.flatten.map sampleDiceStat := by
  induction bs generalizing st with
  | nil => simp [seg_run_validation_epoch]
  | cons b t ih =>
    rw [run_step_cons, ih]
    simp [seg_validation_step, List.map_append]

theorem run_outputs (st : SegState) (bs : List (List SegSample)) :
    (seg_run_validation_epoch st bs).validation_step_outputs =
      st.validation_step_outputs ++ bs := by
  induction bs generalizing st with
  | nil => simp [seg_run_validation_epoch]
  | cons b t ih =>
    rw [run_step_cons, ih]
    simp [seg_validation_step]

theorem torchCat_of_ne (l : List (List SegSample)) (h : l ≠ []) :
    torchCat l = Except.ok l.flatten := by
  cases l with
  | nil => exact absurd rfl h
  | cons a t => rfl

theorem foregroundCount_replicate_one (n : ℕ) :
    foregroundCount (List.replicate n (1 : ℚ)) = n := by
  induction n with
  | zero => rfl
  | succ k ih =>
    have h : decide ((1 : ℚ)/2 < 1) = true := by norm_num
    unfold foregroundCount at ih ⊢
    rw [List.replicate_succ, List.countP_cons, ih, h]
    simp

/-! ### Claim theorems -/

/-- Claim C1, counterexample: with the claimed `8×S` relation — `z0` of
shape `(1, 3, 256, 256)` and `z3..z12` of shape `(1, 64, 32, 32)`,
`transformer_width = 64`, `init_filters = 8`, `output_dim = 2` — the
decoder forward pass does not succeed: the final
`torch.cat([z0, z3], dim=1)` receives operands of spatial sizes 256 and
512 (the z3 path doubles four times: three `Deconv2DBlock` stages and the
upsampling block of `decoder3_upsampler`). -/
theorem unetr_example_8S_fails :
    UNETR_forward 64 2 3 8 ⟨1, 3, 256, 256⟩ ⟨1, 64, 32, 32⟩ ⟨1, 64, 32, 32⟩
      ⟨1, 64, 32, 32⟩ ⟨1, 64, 32, 32⟩ = none := by decide

/-- Claim C1, amended: the decoder forward pass succeeds when `z0` has
spatial size `16×S`; with `z0: (1, 3, 512, 512)` and
`z3..z12: (1, 64, 32, 32)`, `transformer_width = 64`, `init_filters = 8`,
`output_dim = 2`, the output is `(1, 2, 512, 512)` — spatial size equal to
that of `z0` and channel count `output_dim`. -/
theorem unetr_example_16S :
    UNETR_forward 64 2 3 8 ⟨1, 3, 512, 512⟩ ⟨1, 64, 32, 32⟩ ⟨1, 64, 32, 32⟩
      ⟨1, 64, 32, 32⟩ ⟨1, 64, 32, 32⟩ = some ⟨1, 2, 512, 512⟩ := by decide

/-- Witness for C2: the shape invariant instantiated at
`transformer_width = 64`, `output_dim = 2`, `input_dim = 3`,
`init_filters = 8`, batch 1, `S = 32`. -/
theorem UNETR_forward_shape_witness :
    UNETR_forward 64 2 3 8 ⟨1, 3, 16 * 32, 16 * 32⟩ ⟨1, 64, 32, 32⟩
      ⟨1, 64, 32, 32⟩ ⟨1, 64, 32, 32⟩ ⟨1, 64, 32, 32⟩ =
      some ⟨1, 2, 16 * 32, 16 * 32⟩ :=
  UNETR_forward_shape 64 2 3 8 1 32 (by decide) (by decide) (by decide)
    (by decide) (by decide)

/-- Claim C3: in `validation_step` and `test_step` of the segmentation
model (both compute
`pred_label = ((probs > 0.5).sum((2, 3)) > self.pixel_treshold)` through
`sampleConfPairs`), a derived binary label is 1 exactly when the count of
pixels with probability strictly greater than 0.5 strictly exceeds 1000;
a mask slice with exactly 1001 foreground pixels yields 1 and one with
exactly 1000 foreground pixels yields 0. -/
theorem segPredLabel_threshold :
    (∀ ch : List ℚ, segPredLabel ch = 1 ↔ 1000 < foregroundCount ch) ∧
    segPredLabel (List.replicate 1001 1) = 1 ∧
    segPredLabel (List.replicate 1000 1) = 0 := by
  refine ⟨fun ch => ?_, ?_, ?_⟩
  · by_cases h : 1000 < foregroundCount ch <;>
      simp [segPredLabel, pixel_treshold, h]
  · simp only [segPredLabel, pixel_treshold, foregroundCount_replicate_one]
    norm_num
  · simp only [segPredLabel, pixel_treshold, foregroundCount_replicate_one]
    norm_num

/-- Claim C4: for every batch sequence, running the
Accumulating→Reducing→Idle cycle (validation steps followed by
`on_validation_epoch_end`) twice from the initial state with identical
batch sequences yields identical reduced results both times, and
immediately after each reduction the accumulator state is the empty
initial state (running statistics reset, Dice statistics reset, buffered
list cleared). -/
theorem seg_epoch_cycle_idempotent (bs : List (List SegSample)) :
    (seg_on_validation_epoch_end (seg_run_validation_epoch SegState.init bs)).1 =
      (seg_on_validation_epoch_end (seg_run_validation_epoch
        (seg_on_validation_epoch_end
          (seg_run_validation_epoch SegState.init bs)).2 bs)).1 ∧
    (seg_on_validation_epoch_end
      (seg_run_validation_epoch SegState.init bs)).2 = SegState.init ∧
    (seg_on_validation_epoch_end (seg_run_validation_epoch
      (seg_on_validation_epoch_end
        (seg_run_validation_epoch SegState.init bs)).2 bs)).2 = SegState.init := by
  have h1 : (seg_on_validation_epoch_end
      (seg_run_validation_epoch SegState.init bs)).2 = SegState.init := by
    have h := run_test_metrics SegState.init bs
    show (⟨ConfCounts.init,
      (seg_run_validation_epoch SegState.init bs).test_metrics, [], []⟩ :
        SegState) = SegState.init
    rw [h]
    rfl
  exact ⟨by rw [h1], h1, by rw [h1]; exact h1⟩

/-- Claim C5, counterexample: invoked on the empty accumulator, the
classification epoch-end reduction does not signal an invalid-use error;
it returns degenerate metric values (torchmetrics safe division yields 0
everywhere and a zero confusion matrix). -/
theorem cls_epoch_end_empty_ok :
    (cls_on_validation_epoch_end ClsState.init).1 =
      Except.ok { accuracy := 0, «recall» := 0, f1 := 0, precision := 0,
                  specificity := 0, confmat := (0, 0, 0, 0) } := by
  norm_num [cls_on_validation_epoch_end, computeMetrics, safeDiv,
    ConfCounts.init, ClsState.init]

/-- Claim C5, amended: when no batches were accumulated during the phase,
the segmentation epoch-end reduction raises (at `torch.cat` over the
empty buffered list) for both the validation and the test hook, while the
classification epoch-end reduction never raises and returns the reduced
metrics of whatever the counters hold. -/
theorem epoch_end_empty_accumulator :
    (∀ st : SegState, st.validation_step_outputs = [] →
      (seg_on_validation_epoch_end st).1 =
        Except.error "torch.cat on an empty list of tensors" ∧
      (seg_on_test_epoch_end st).1 =
        Except.error "torch.cat on an empty list of tensors") ∧
    (∀ st : ClsState,
      (cls_on_validation_epoch_end st).1 =
        Except.ok (computeMetrics st.val_metrics) ∧
      (cls_on_test_epoch_end st).1 =
        Except.ok (computeMetrics st.test_metrics)) := by
  refine ⟨fun st h => ⟨?_, ?_⟩, fun st => ⟨rfl, rfl⟩⟩ <;>
    simp [seg_on_validation_epoch_end, seg_on_test_epoch_end, torchCat, h,
      Except.bind, Except.pure, bind, pure]

/-- Witness for the amended C5, at the initial (empty) states. -/
theorem epoch_end_empty_accumulator_witness :
    SegState.init.validation_step_outputs = [] ∧
    (seg_on_validation_epoch_end SegState.init).1 =
      Except.error "torch.cat on an empty list of tensors" ∧
    (seg_on_test_epoch_end SegState.init).1 =
      Except.error "torch.cat on an empty list of tensors" ∧
    (cls_on_validation_epoch_end ClsState.init).1 =
      Except.ok (computeMetrics ClsState.init.val_metrics) :=
  ⟨rfl, (epoch_end_empty_accumulator.1 SegState.init rfl).1,
    (epoch_end_empty_accumulator.1 SegState.init rfl).2,
    (epoch_end_empty_accumulator.2 ClsState.init).1⟩

/-- Claim C6, counterexample: the Dice statistic is not private to a
phase.  After one validation step, the validation epoch end would report
a Dice of 1; if a test step runs first (mutating the shared `dice_score`
object), the same validation epoch end reports 1/2 — the mean of the
per-sample dice scores 1 (the validation sample) and 0 (the interfering
test sample). -/
theorem cross_phase_dice_interference :
    valEpochDsc (seg_validation_step SegState.init
        [⟨[[0], [1]], [[0], [1]], [false, true]⟩]) = some 1 ∧
    valEpochDsc (seg_test_step (seg_validation_step SegState.init
        [⟨[[0], [1]], [[0], [1]], [false, true]⟩])
        [⟨[[0], [1]], [[0], [0]], [false, false]⟩]) = some (1/2) := by
  constructor <;>
    norm_num [valEpochDsc, seg_on_validation_epoch_end, seg_validation_step,
      seg_test_step, SegState.init, ConfCounts.init, ConfCounts.update,
      ConfCounts.update1, diceCompute, sampleDiceStat, hardMask, dotSum,
      safeDiv, torchCat, sampleConfPairs, segPredLabel, foregroundCount,
      pixel_treshold, smp_fscore, smpEps, Except.bind, Except.pure, bind, pure]

/-- Claim C6, amended: the two `MetricCollection` accumulators are
phase-private — `test_step` and the test epoch end leave `val_metrics`
unchanged, `validation_step` and the validation epoch end leave
`test_metrics` unchanged, and `training_step` touches no accumulator —
but `dice_score` and `validation_step_outputs` are single objects shared
by the validation and test phases. -/
theorem metric_collections_phase_private :
    ∀ (st : SegState) (batch : List SegSample),
      (seg_test_step st batch).val_metrics = st.val_metrics ∧
      (seg_validation_step st batch).test_metrics = st.test_metrics ∧
      (seg_on_test_epoch_end st).2.val_metrics = st.val_metrics ∧
      (seg_on_validation_epoch_end st).2.test_metrics = st.test_metrics ∧
      (seg_training_step st batch).1 = st :=
  fun _ _ => ⟨rfl, rfl, rfl, rfl, rfl⟩

/-- Claim C7, counterexample: one batch with one sample (two channels of
two pixels, probabilities all 1; target mask all 1 on channel 0, all 0 on
channel 1).  The epoch-end recomputed F-score pools every channel and is
`(4 + eps)/(6 + eps) = 40000001/60000001 ≈ 2/3`, while the incrementally
tracked Dice (`include_background=False` drops channel 0) is 0: the gap
far exceeds the claimed `1e-4` tolerance.  (The tracked `f1` of the
derived labels is also 0 on this input.) -/
theorem smp_dsc_gap_large :
    smpDscGap [[⟨[[1, 1], [1, 1]], [[1, 1], [0, 0]], [true, false]⟩]] =
      some (40000001/60000001) ∧ (1 : ℚ)/10000 < 40000001/60000001 := by
  constructor
  · norm_num [smpDscGap, seg_run_validation_epoch, seg_on_validation_epoch_end,
      seg_validation_step, SegState.init, ConfCounts.init, ConfCounts.update,
      ConfCounts.update1, diceCompute, sampleDiceStat, hardMask, dotSum,
      safeDiv, torchCat, sampleConfPairs, segPredLabel, foregroundCount,
      pixel_treshold, smp_fscore, smpEps, Except.bind, Except.pure, bind, pure]
  · norm_num

/-- Claim C7, amended: the epoch-end reduction — including the
full-concatenation F-score recomputation — depends only on the
concatenation of the accumulated batches, not on how the epoch was split
into batches: two nonempty batch sequences with equal concatenations
yield equal epoch-end results.  Equality of the recomputed F-score and
the incrementally tracked Dice within `1e-4` does not hold in general. -/
theorem seg_epoch_result_rebatch_invariant (bs1 bs2 : List (List SegSample))
    (hj : bs1.flatten = bs2.flatten) (h1 : bs1 ≠ []) (h2 : bs2 ≠ []) :
    (seg_on_validation_epoch_end
      (seg_run_validation_epoch SegState.init bs1)).1 =
    (seg_on_validation_epoch_end
      (seg_run_validation_epoch SegState.init bs2)).1 := by
  have o1 : (seg_run_validation_epoch SegState.init
      bs1).validation_step_outputs = bs1 := by
    rw [run_outputs]; exact List.nil_append bs1
  have o2 : (seg_run_validation_epoch SegState.init
      bs2).validation_step_outputs = bs2 := by
    rw [run_outputs]; exact List.nil_append bs2
  simp only [seg_on_validation_epoch_end, run_val_metrics, run_dice_score,
    o1, o2, hj, torchCat_of_ne bs1 h1, torchCat_of_ne bs2 h2,
    List.nil_append]

/-- Witness for the amended C7: the epoch split into two one-sample
batches and the epoch given as a single two-sample batch produce the same
epoch-end result. -/
theorem seg_epoch_result_rebatch_invariant_witness :
    ([[⟨[[1]], [[1]], [true]⟩], [⟨[[0]], [[0]], [false]⟩]] :
        List (List SegSample)).flatten =
      ([[⟨[[1]], [[1]], [true]⟩, ⟨[[0]], [[0]], [false]⟩]] :
        List (List SegSample)).flatten ∧
    (seg_on_validation_epoch_end (seg_run_validation_epoch SegState.init
        [[⟨[[1]], [[1]], [true]⟩], [⟨[[0]], [[0]], [false]⟩]])).1 =
      (seg_on_validation_epoch_end (seg_run_validation_epoch SegState.init
        [[⟨[[1]], [[1]], [true]⟩, ⟨[[0]], [[0]], [false]⟩]])).1 :=
  ⟨rfl, seg_epoch_result_rebatch_invariant
    [[⟨[[1]], [[1]], [true]⟩], [⟨[[0]], [[0]], [false]⟩]]
    [[⟨[[1]], [[1]], [true]⟩, ⟨[[0]], [[0]], [false]⟩]]
    rfl (List.cons_ne_nil _ _) (List.cons_ne_nil _ _)⟩

/-- Claim C8: at every concatenation of the decoder forward pass the two
operands (first the shallower-branch output, as written in
`torch.cat([z9, z12])`, `torch.cat([z6, z9])`, `torch.cat([z3, z6])`,
`torch.cat([z0, z3])`) have equal spatial sizes and channel counts
summing to the documented combined width:
`8f + 8f = 16f` at the z9 merge, `4f + 4f = 8f` at the z6 merge,
`2f + 2f = 4f` at the z3 merge and `f + f = 2f` at the z0 merge. -/
theorem unetr_concat_channel_invariant (tw idim f n S : ℕ) (htw : 0 < tw)
    (hid : 0 < idim) (hf : 0 < f) (hS : 0 < S) :
    (decoder9 tw f ⟨n, tw, S, S⟩ = some ⟨n, 8 * f, 2 * S, 2 * S⟩ ∧
     decoder12_upsampler tw f ⟨n, tw, S, S⟩ = some ⟨n, 8 * f, 2 * S, 2 * S⟩ ∧
     cat2 ⟨n, 8 * f, 2 * S, 2 * S⟩ ⟨n, 8 * f, 2 * S, 2 * S⟩ =
       some ⟨n, 8 * f + 8 * f, 2 * S, 2 * S⟩ ∧ 8 * f + 8 * f = 16 * f) ∧
    (decoder6 tw f ⟨n, tw, S, S⟩ = some ⟨n, 4 * f, 4 * S, 4 * S⟩ ∧
     decoder9_upsampler f ⟨n, 16 * f, 2 * S, 2 * S⟩ =
       some ⟨n, 4 * f, 4 * S, 4 * S⟩ ∧
     cat2 ⟨n, 4 * f, 4 * S, 4 * S⟩ ⟨n, 4 * f, 4 * S, 4 * S⟩ =
       some ⟨n, 4 * f + 4 * f, 4 * S, 4 * S⟩ ∧ 4 * f + 4 * f = 8 * f) ∧
    (decoder3 tw f ⟨n, tw, S, S⟩ = some ⟨n, 2 * f, 8 * S, 8 * S⟩ ∧
     decoder6_upsampler f ⟨n, 8 * f, 4 * S, 4 * S⟩ =
       some ⟨n, 2 * f, 8 * S, 8 * S⟩ ∧
     cat2 ⟨n, 2 * f, 8 * S, 8 * S⟩ ⟨n, 2 * f, 8 * S, 8 * S⟩ =
       some ⟨n, 2 * f + 2 * f, 8 * S, 8 * S⟩ ∧ 2 * f + 2 * f = 4 * f) ∧
    (decoder0 idim f ⟨n, idim, 16 * S, 16 * S⟩ =
       some ⟨n, f, 16 * S, 16 * S⟩ ∧
     decoder3_upsampler f ⟨n, 4 * f, 8 * S, 8 * S⟩ =
       some ⟨n, f, 16 * S, 16 * S⟩ ∧
     cat2 ⟨n, f, 16 * S, 16 * S⟩ ⟨n, f, 16 * S, 16 * S⟩ =
       some ⟨n, f + f, 16 * S, 16 * S⟩ ∧ f + f = 2 * f) := by
  refine ⟨⟨decoder9_shape tw f n S htw hf hS,
      decoder12_upsampler_shape tw f n S htw hf hS,
      cat2_eq n (8 * f) (8 * f) (2 * S) (2 * S), by ring⟩,
    ⟨decoder6_shape tw f n S htw hf hS,
      decoder9_upsampler_shape f n S hf hS,
      cat2_eq n (4 * f) (4 * f) (4 * S) (4 * S), by ring⟩,
    ⟨decoder3_shape tw f n S htw hf hS,
      decoder6_upsampler_shape f n S hf hS,
      cat2_eq n (2 * f) (2 * f) (8 * S) (8 * S), by ring⟩,
    ⟨decoder0_shape idim f n (16 * S) (16 * S) hid hf (by omega) (by omega),
      decoder3_upsampler_shape f n S hf hS,
      cat2_eq n f f (16 * S) (16 * S), by ring⟩⟩

/-- Witness for C8 at `transformer_width = 64`, `input_dim = 3`,
`init_filters = 8`, batch 1, `S = 32`. -/
theorem unetr_concat_channel_invariant_witness :
    (decoder9 64 8 ⟨1, 64, 32, 32⟩ = some ⟨1, 8 * 8, 2 * 32, 2 * 32⟩ ∧
     decoder12_upsampler 64 8 ⟨1, 64, 32, 32⟩ =
       some ⟨1, 8 * 8, 2 * 32, 2 * 32⟩ ∧
     cat2 ⟨1, 8 * 8, 2 * 32, 2 * 32⟩ ⟨1, 8 * 8, 2 * 32, 2 * 32⟩ =
       some ⟨1, 8 * 8 + 8 * 8, 2 * 32, 2 * 32⟩ ∧ 8 * 8 + 8 * 8 = 16 * 8) ∧
    (decoder6 64 8 ⟨1, 64, 32, 32⟩ = some ⟨1, 4 * 8, 4 * 32, 4 * 32⟩ ∧
     decoder9_upsampler 8 ⟨1, 16 * 8, 2 * 32, 2 * 32⟩ =
       some ⟨1, 4 * 8, 4 * 32, 4 * 32⟩ ∧
     cat2 ⟨1, 4 * 8, 4 * 32, 4 * 32⟩ ⟨1, 4 * 8, 4 * 32, 4 * 32⟩ =
       some ⟨1, 4 * 8 + 4 * 8, 4 * 32, 4 * 32⟩ ∧ 4 * 8 + 4 * 8 = 8 * 8) ∧
    (decoder3 64 8 ⟨1, 64, 32, 32⟩ = some ⟨1, 2 * 8, 8 * 32, 8 * 32⟩ ∧
     decoder6_upsampler 8 ⟨1, 8 * 8, 4 * 32, 4 * 32⟩ =
       some ⟨1, 2 * 8, 8 * 32, 8 * 32⟩ ∧
     cat2 ⟨1, 2 * 8, 8 * 32, 8 * 32⟩ ⟨1, 2 * 8, 8 * 32, 8 * 32⟩ =
       some ⟨1, 2 * 8 + 2 * 8, 8 * 32, 8 * 32⟩ ∧ 2 * 8 + 2 * 8 = 4 * 8) ∧
    (decoder0 3 8 ⟨1, 3, 16 * 32, 16 * 32⟩ =
       some ⟨1, 8, 16 * 32, 16 * 32⟩ ∧
     decoder3_upsampler 8 ⟨1, 4 * 8, 8 * 32, 8 * 32⟩ =
       some ⟨1, 8, 16 * 32, 16 * 32⟩ ∧
     cat2 ⟨1, 8, 16 * 32, 16 * 32⟩ ⟨1, 8, 16 * 32, 16 * 32⟩ =
       some ⟨1, 8 + 8, 16 * 32, 16 * 32⟩ ∧ 8 + 8 = 2 * 8) :=
  unetr_concat_channel_invariant 64 3 8 1 32 (by decide) (by decide)
    (by decide) (by decide)

/-- Claim C9, counterexample: `SingleConv2DBlock` does not preserve the
spatial size for every kernel size — with kernel size 2 (padding
`(2 - 1) // 2 = 0`) a 4×4 input shrinks to 3×3. -/
theorem singleConv_even_kernel_shrinks :
    SingleConv2DBlock 1 1 2 1 ⟨1, 1, 4, 4⟩ = some ⟨1, 1, 3, 3⟩ ∧
    SingleConv2DBlock 1 1 2 1 ⟨1, 1, 4, 4⟩ ≠ some ⟨1, 1, 4, 4⟩ := by decide

/-- Claim C9, amended: for every odd `kernel_size` (the only kind the
model instantiates: 1 and 3), `SingleConv2DBlock` (stride 1, padding
`(kernel_size - 1) // 2`) maps a valid nonempty input of spatial size
`H×W` to an output of the same spatial size `H×W`. -/
theorem singleConv_odd_kernel_same_size (i o k g n h w : ℕ) (hi : 0 < i)
    (ho : 0 < o) (hg : 0 < g) (hig : i % g = 0) (hog : o % g = 0)
    (hk : k % 2 = 1) (hh : 0 < h) (hw : 0 < w) :
    SingleConv2DBlock i o k g ⟨n, i, h, w⟩ = some ⟨n, o, h, w⟩ :=
  singleConv_odd i o k g n h w hi ho hg hig hog hk hh hw

/-- Witness for the amended C9 at kernel size 3 on a 4×4 input. -/
theorem singleConv_odd_kernel_same_size_witness :
    SingleConv2DBlock 1 1 3 1 ⟨1, 1, 4, 4⟩ = some ⟨1, 1, 4, 4⟩ :=
  singleConv_odd_kernel_same_size 1 1 3 1 1 4 4 (by decide) (by decide)
    (by decide) (by decide) (by decide) (by decide) (by decide) (by decide)

/-- Claim C10: the training phase never aggregates — for every batch,
`training_step` of the segmentation model and of the classification model
leaves the whole accumulator state (`val_metrics`, `test_metrics`,
`dice_score`, `validation_step_outputs`) unchanged and returns the
loss without calling any accumulator update. -/
theorem training_step_frame :
    (∀ (st : SegState) (batch : List SegSample),
      (seg_training_step st batch).1 = st) ∧
    (∀ (st : ClsState) (batch : List ClsSample),
      (cls_training_step st batch).1 = st) :=
  ⟨fun _ _ => rfl, fun _ _ => rfl⟩

end Model
